import Mathlib

/-
  Verification development for the Telegram task-creation bot (src/main.py).

  The Python source is shallowly embedded: module-level option catalogs become
  list constants, the `FormState` class becomes a structure with pure state
  transformers, and the relevant parts of `handle_message` / `callback_handler`
  become step functions from an event to a new state plus the reply sent.

  Python's `answers` dictionary is copied shallowly by `FormState.save_state`
  (`self.answers.copy()`), so the list stored under the `'audience'` key is
  shared between the live state and every history snapshot.  The embedding
  makes that aliasing explicit: the audience list lives in a small heap of
  list cells (`World.heap`) and the dictionary stores a reference to a cell;
  everything else in the dictionary is an immutable string and is copied by
  value, exactly as in Python.
-/

set_option maxHeartbeats 1000000

namespace TrackerBot

/-- Audience catalog (`AUDIENCE_CHOICES` in main.py). -/
def AUDIENCE_CHOICES : List String := ["👥 Users", "🚗 Drivers", "🏢 Partner park"]

/-- The multi-select commit sentinel (`DONE_SELECTION`). -/
def DONE_SELECTION : String := "✅ Done"

/-- Region catalog (`REGION_CHOICES`). -/
def REGION_CHOICES : List String :=
  ["🌎 All regions", "🌍 South&Central Africa", "🌍 West Africa", "🌍 EMEA&Eur",
   "🌏 MENAP", "🌎 LatAm", "🌍 CIS", "❓ I don\x27t know"]

/-- Region-specific questions (`REGION_SPECIFIC_QUESTIONS`). -/
def REGION_SPECIFIC_QUESTIONS : List String := ["Which country?", "Which city?"]

/-- Common questions for all paths (`COMMON_QUESTIONS`). -/
def COMMON_QUESTIONS : List String :=
  ["What is the task about? (What has happened?)",
   "What problem do we want to solve with this communication?",
   "RTB",
   "Key message",
   "What would be your indicator that the problem was solved with the help of this communication?"]

/-- Final questions (`FINAL_QUESTIONS`). -/
def FINAL_QUESTIONS : List String :=
  ["Which segment of users/drivers should the communication be sent to?",
   "What types of communications you would like to use in this task?"]

/-- The communication-types question, referred to in the source as `FINAL_QUESTIONS[1]`. -/
def commTypesQuestion : String := FINAL_QUESTIONS.getD 1 ""

/-- Communication type catalog for a Users audience (`USER_COMMUNICATION_TYPES`). -/
def USER_COMMUNICATION_TYPES : List String :=
  ["📱 Push", "💬 SMS", "📲 WhatsApp", "🖼️ Banner", "📖 Stories", "📺 Fullscreen",
   "🎯 Plashka", "🗺️ Object over the map", "🔘 Promo button", "🎫 Promo card",
   "🎴 Upsell card", "✨ Splashscreen", "❓ I don\x27t know"]

/-- Communication type catalog for a Drivers-only audience (`DRIVER_COMMUNICATION_TYPES`). -/
def DRIVER_COMMUNICATION_TYPES : List String :=
  ["📱 Push", "💬 SMS", "📲 WhatsApp", "📖 Stories", "📺 Fullscreen", "📰 Feed",
   "🗺️ Object over the map", "❓ I don\x27t know"]

/-- Navigation button labels (`NAVIGATION_BUTTONS`). -/
def NAVIGATION_BUTTONS : List String := ["⬅️ Go back", "❌ Cancel"]

/-- Splitting a character list on runs of whitespace, dropping empty pieces:
the behavior of Python's `str.split()` with no separator argument. -/
def splitWs : List Char → List Char → List (List Char)
  | [], acc => if acc = [] then [] else [acc.reverse]
  | c :: rest, acc =>
      if c.isWhitespace then
        (if acc = [] then splitWs rest [] else acc.reverse :: splitWs rest [])
      else splitWs rest (c :: acc)

/-- Joining strings with single spaces: `' '.join(parts)`. -/
def joinSpace : List String → String
  | [] => ""
  | [x] => x
  | x :: xs => x ++ " " ++ joinSpace xs

/-- `' '.join(message_text.split()[1:])` — drop the leading emoji token of a
catalog entry, keeping the rest of the words. -/
def stripEmoji (s : String) : String :=
  joinSpace (((splitWs s.data []).map String.mk).tail)

/-- Python's `s[:100]` on a string: the first 100 code points. -/
def pySlice100 (s : String) : String := String.mk (s.data.take 100)

/-- A calendar date, compared the way Python compares `datetime.date` values
(lexicographically on year, month, day). -/
structure Date where
  y : Nat
  m : Nat
  d : Nat
deriving Repr, DecidableEq

/-- Python `date` comparison `a < b` (lexicographic). -/
def dateLt (a b : Date) : Bool :=
  if a.y < b.y then true
  else if b.y < a.y then false
  else if a.m < b.m then true
  else if b.m < a.m then false
  else decide (a.d < b.d)

/-- Days since 1970-01-01 of a calendar date (civil-calendar conversion,
valid for years ≥ 1).  This is the instant arithmetic behind Python's
`datetime` subtraction. -/
def toEpochDay (dt : Date) : Int :=
  let y : Int := if dt.m ≤ 2 then (dt.y : Int) - 1 else (dt.y : Int)
  let era : Int := Int.fdiv y 400
  let yoe : Int := y - era * 400
  let mp : Int := Int.emod ((dt.m : Int) + 9) 12
  let doy : Int := Int.fdiv (153 * mp + 2) 5 + (dt.d : Int) - 1
  let doe : Int := yoe * 365 + Int.fdiv yoe 4 - Int.fdiv yoe 100 + doy
  era * 146097 + doe - 719468

/-- `calculate_priority(deadline_str)` from main.py.  The deadline string is
parsed to midnight UTC of its calendar date; `now` is the current instant,
given here as its calendar date `nowDay` plus `nowSod` seconds past midnight.
`(deadline - now).days` is Python `timedelta.days`, which floors. -/
def calculate_priority (deadline : Date) (nowDay : Date) (nowSod : Nat) : String :=
  let diffSeconds : Int := toEpochDay deadline * 86400 - (toEpochDay nowDay * 86400 + (nowSod : Int))
  let days_until_deadline := Int.fdiv diffSeconds 86400
  if days_until_deadline < 3 then "blocker"
  else if days_until_deadline < 7 then "critical"
  else if days_until_deadline < 14 then "major"
  else "normal"

/-- The `form_state.answers` dictionary.  The `'audience'` key holds a mutable
Python list, embedded as a reference into `World.heap`; every other key maps
to an immutable string and is stored by value.  Entry order is Python's
insertion order with in-place update. -/
structure Dict where
  audienceRef : Option Nat
  entries : List (String × String)
deriving Repr, DecidableEq

/-- `d[k] = v` for a string-valued key: update in place if present, else append. -/
def Dict.set (d : Dict) (k v : String) : Dict :=
  if d.entries.any (fun kv => kv.1 == k) then
    { d with entries := d.entries.map (fun kv => if kv.1 == k then (k, v) else kv) }
  else { d with entries := d.entries ++ [(k, v)] }

/-- `d.get(k)` for a string-valued key. -/
def Dict.get? (d : Dict) (k : String) : Option String :=
  (d.entries.find? (fun kv => kv.1 == k)).map (fun kv => kv.2)

/-- One history snapshot: exactly the nine fields `FormState.save_state`
copies into `state_copy`.  `answers` is Python's shallow `dict.copy()`: the
audience reference is shared, the other entries are immutable strings. -/
structure Snapshot where
  answers : Dict
  current_question : Option String
  selected_audience : Bool
  selected_region : Option String
  questions_queue : List String
  awaiting_deadline : Bool
  awaiting_communication_types : Bool
  communication_types : List String
  all_questions_answered : Bool
deriving Repr, DecidableEq

/-- The `FormState` class of main.py. -/
structure FormState where
  answers : Dict
  current_question : Option String
  selected_audience : Bool
  selected_region : Option String
  questions_queue : List String
  awaiting_deadline : Bool
  current_calendar_year : Nat
  current_calendar_month : Nat
  previous_states : List Snapshot
  awaiting_communication_types : Bool
  communication_types : List String
  all_questions_answered : Bool
  is_empty_ticket : Bool
deriving Repr, DecidableEq

/-- `FormState.__init__` (the calendar cursor starts at the current year and
month, passed in here). -/
def FormState.init (calY calM : Nat) : FormState :=
  { answers := { audienceRef := none, entries := [] }
    current_question := none
    selected_audience := false
    selected_region := none
    questions_queue := []
    awaiting_deadline := false
    current_calendar_year := calY
    current_calendar_month := calM
    previous_states := []
    awaiting_communication_types := false
    communication_types := []
    all_questions_answered := false
    is_empty_ticket := false }

/-- The `state_copy` dictionary built by `FormState.save_state`. -/
def FormState.snapshot (s : FormState) : Snapshot :=
  { answers := s.answers
    current_question := s.current_question
    selected_audience := s.selected_audience
    selected_region := s.selected_region
    questions_queue := s.questions_queue
    awaiting_deadline := s.awaiting_deadline
    awaiting_communication_types := s.awaiting_communication_types
    communication_types := s.communication_types
    all_questions_answered := s.all_questions_answered }

/-- `FormState.save_state`: push a snapshot on `previous_states`
(Python appends at the end of the list). -/
def FormState.save_state (s : FormState) : FormState :=
  { s with previous_states := s.previous_states ++ [s.snapshot] }

/-- `FormState.go_back`: pop the most recent snapshot and restore its nine
fields; `none` models the `False` return when the stack is empty.  The
calendar cursor and `is_empty_ticket` are not restored, as in the source. -/
def FormState.go_back (s : FormState) : Option FormState :=
  match s.previous_states.getLast? with
  | none => none
  | some p =>
      some { s with
        answers := p.answers
        current_question := p.current_question
        selected_audience := p.selected_audience
        selected_region := p.selected_region
        questions_queue := p.questions_queue
        awaiting_deadline := p.awaiting_deadline
        awaiting_communication_types := p.awaiting_communication_types
        communication_types := p.communication_types
        all_questions_answered := p.all_questions_answered
        previous_states := s.previous_states.dropLast }

/-- `FormState.get_next_question`: pop the front of the queue into
`current_question`; on an empty queue set `all_questions_answered` and
return `None`. -/
def FormState.get_next_question (s : FormState) : Option String × FormState :=
  match s.questions_queue with
  | [] => (none, { s with all_questions_answered := true })
  | q :: rest => (some q, { s with current_question := some q, questions_queue := rest })

/-- A user session's form state together with the heap of audience list
cells (the mutable Python list objects shared through shallow dict copies). -/
structure World where
  fs : FormState
  heap : List (List String)
deriving Repr, DecidableEq

/-- Append to the audience list cell `r` in place (`list.append`). -/
def heapAppend (h : List (List String)) (r : Nat) (v : String) : List (List String) :=
  h.set r (h.getD r [] ++ [v])

/-- `answers.get('audience', [])`: dereference the audience cell, `[]` when
the key is absent. -/
def audienceListOf (heap : List (List String)) (d : Dict) : List String :=
  match d.audienceRef with
  | none => []
  | some r => heap.getD r []

/-- The audience list visible in a session. -/
def World.audienceList (w : World) : List String := audienceListOf w.heap w.fs.answers

/-- `form_state.go_back()` lifted to a session. -/
def World.goBack (w : World) : Option World :=
  (w.fs.go_back).map (fun fs => { w with fs := fs })

/-- A created tracker issue, keeping the fields the claims are about; the
description (a timestamped free-text report) is not modelled. -/
structure Ticket where
  queue : String
  summary : String
  priority : String
deriving Repr, DecidableEq

/-- The reply the handler sends back for one inbound event, identified by
which `reply_text` call in the source produced it. -/
inductive Reply where
  | selectedMore (choice : String)
  | selectAtLeastOneAudience
  | regionPrompt
  | selectRegionFromList
  | question (q : String)
  | commTypesPrompt (choices : List String)
  | selectAtLeastOneComm (choices : List String)
  | deadlinePrompt
  | pastDateError
  | deadlineSet (d : Date) (priority : String)
  | enterTaskName
  | enterDescription
  | submitted (t : Ticket)
  | audiencePrompt
deriving Repr, DecidableEq

/-- The `state == 'collecting_data'` dispatch of `handle_message`
(main.py lines 684-823), as a pure step: one inbound text message to the
new session state plus the reply (`none` when the code falls through the
whole `if`/`elif` chain without replying). -/
def collectStep (w : World) (msg : String) : World × Option Reply :=
  let fs := w.fs
  if fs.selected_audience = false ∧ fs.answers.audienceRef = none then
    -- initial audience selection
    if msg ∈ AUDIENCE_CHOICES then
      let fs1 := fs.save_state
      let clean := stripEmoji msg
      let r := w.heap.length
      ({ fs := { fs1 with answers := { fs1.answers with audienceRef := some r } }
         heap := w.heap ++ [[clean]] },
       some (.selectedMore msg))
    else (w, none)
  else if fs.selected_audience = false then
    -- additional audience selection
    if msg = DONE_SELECTION then
      if audienceListOf w.heap fs.answers = [] then
        (w, some .selectAtLeastOneAudience)
      else
        let fs1 := fs.save_state
        ({ w with fs := { fs1 with selected_audience := true } }, some .regionPrompt)
    else if msg ∈ AUDIENCE_CHOICES then
      let clean := stripEmoji msg
      if clean ∈ audienceListOf w.heap fs.answers then
        (w, some (.selectedMore msg))
      else
        match fs.answers.audienceRef with
        | some r =>
            ({ fs := fs.save_state, heap := heapAppend w.heap r clean },
             some (.selectedMore msg))
        | none => (w, none)  -- unreachable: the previous branch covers a missing key
    else (w, none)
  else if fs.selected_region = none then
    -- region selection
    if msg ∈ REGION_CHOICES then
      let fs1 := fs.save_state
      let clean := stripEmoji msg
      let queue :=
        if clean = "All regions" then COMMON_QUESTIONS ++ FINAL_QUESTIONS
        else REGION_SPECIFIC_QUESTIONS ++ COMMON_QUESTIONS ++ FINAL_QUESTIONS
      let fs2 := { fs1 with
        selected_region := some clean
        answers := fs1.answers.set "region" clean
        questions_queue := queue }
      let next := fs2.get_next_question
      ({ w with fs := next.2 }, some (.question (next.1.getD "None")))
    else (w, some .selectRegionFromList)
  else if fs.current_question = some commTypesQuestion then
    -- communication types sub-flow
    if fs.awaiting_communication_types = false then
      let fs1 := fs.save_state
      let comm := if "Users" ∈ audienceListOf w.heap fs.answers
                  then USER_COMMUNICATION_TYPES else DRIVER_COMMUNICATION_TYPES
      ({ w with fs := { fs1 with awaiting_communication_types := true } },
       some (.commTypesPrompt comm))
    else if msg = DONE_SELECTION then
      if fs.communication_types = [] then
        (w, some (.selectAtLeastOneComm
          (if "Users" ∈ audienceListOf w.heap fs.answers
           then USER_COMMUNICATION_TYPES else DRIVER_COMMUNICATION_TYPES)))
      else
        let fs1 := fs.save_state
        -- the branch guard gives current_question = commTypesQuestion
        ({ w with fs := { fs1 with
             answers := fs1.answers.set commTypesQuestion
               (String.intercalate ", " fs1.communication_types)
             awaiting_communication_types := false
             awaiting_deadline := true } },
         some .deadlinePrompt)
    else if msg ∈ (if "Users" ∈ audienceListOf w.heap fs.answers
                   then USER_COMMUNICATION_TYPES else DRIVER_COMMUNICATION_TYPES) then
      let fs1 := fs.save_state
      let fs2 := if msg ∈ fs1.communication_types then fs1
                 else { fs1 with communication_types := fs1.communication_types ++ [msg] }
      ({ w with fs := fs2 }, some (.selectedMore msg))
    else (w, none)
  else
    -- ordinary free-text question
    let fs1 :=
      match fs.current_question with
      | some q =>
          let fsS := fs.save_state
          { fsS with answers := fsS.answers.set q msg }
      | none => fs
    let next := fs1.get_next_question
    match next.1 with
    | some q2 =>
        if q2 = commTypesQuestion then
          let comm := if "Users" ∈ audienceListOf w.heap next.2.answers
                      then USER_COMMUNICATION_TYPES else DRIVER_COMMUNICATION_TYPES
          ({ w with fs := { next.2 with awaiting_communication_types := true } },
           some (.commTypesPrompt comm))
        else ({ w with fs := next.2 }, some (.question q2))
    | none => ({ w with fs := next.2 }, none)

/-- The `"date_..."` branch of `callback_handler` (lines 443-479): `sel` is
the date carried by the payload, `today`/`nowSod` give the current UTC
instant.  Note that `save_state` runs before the past-date validation. -/
def callbackDateStep (w : World) (sel : Date) (today : Date) (nowSod : Nat) :
    World × Option Reply :=
  if w.fs.awaiting_deadline = false then (w, none)
  else
    let fs1 := w.fs.save_state
    if dateLt sel today then
      ({ w with fs := fs1 }, some .pastDateError)
    else
      let pr := calculate_priority sel today nowSod
      ({ w with fs := { fs1 with
           answers := (fs1.answers.set "deadline" (toString sel.y ++ "-" ++
             (if sel.m < 10 then "0" else "") ++ toString sel.m ++ "-" ++
             (if sel.d < 10 then "0" else "") ++ toString sel.d)).set "priority" pr
           awaiting_deadline := false } },
       some (.deadlineSet sel pr))

/-- The summary argument of the full-survey `create_issue` call (line 533):
the answer to the first common question, sliced to 100 characters. -/
def fullSurveySummary (d : Dict) : Option String :=
  (d.get? "What is the task about? (What has happened?)").map pySlice100

/-- Which step of `handle_message` a session is in: the full survey
(`state == 'collecting_data'`) or the two steps of the empty-ticket flow. -/
inductive Phase where
  | collecting
  | emptyName
  | emptyDescription
deriving Repr, DecidableEq

/-- One entry of the `user_states` map: the phase, the form state (with its
audience heap), and the empty-ticket `task_name` field. -/
structure Session where
  phase : Phase
  world : World
  task_name : Option String
deriving Repr, DecidableEq

/-- A fresh `FormState()` session state (calendar cursor fixed at 2025-06,
irrelevant to the claims). -/
def startWorld : World := { fs := FormState.init 2025 6, heap := [] }

/-- The empty-ticket steps of `handle_message` (lines 609-659): `none` for
the session means `user_states[user_id] = {}` (cleared after submission). -/
def emptyStep (sess : Session) (msg : String) : Option Session × Option Reply :=
  match sess.phase with
  | .emptyName =>
      (some { sess with phase := .emptyDescription, task_name := some msg },
       some .enterDescription)
  | .emptyDescription =>
      (none, some (.submitted
        { queue := "YANGOCRM"
          summary := pySlice100 (sess.task_name.getD "")
          priority := "normal" }))
  | .collecting => (some sess, none)

/-- `handle_message` from line 591 on, for a user who already has a session:
the empty-ticket and create-task resets, the empty-ticket steps, and the
`collecting_data` dispatch. -/
def dispatchText (sess : Session) (msg : String) : Option Session × Option Reply :=
  if msg = "📄 Empty ticket" then
    (some { phase := .emptyName, world := startWorld, task_name := none },
     some .enterTaskName)
  else if sess.phase = .emptyName ∨ sess.phase = .emptyDescription then
    emptyStep sess msg
  else if msg = "📝 Create Task" then
    (some { phase := .collecting, world := startWorld, task_name := none },
     some .audiencePrompt)
  else
    let r := collectStep sess.world msg
    (some { sess with world := r.1 }, r.2)

/-- The prompt `handle_back` re-renders after a successful `go_back`. -/
def backReply (w : World) : Reply :=
  if w.fs.selected_audience = false then .audiencePrompt
  else if w.fs.selected_region = none then .regionPrompt
  else if w.fs.awaiting_deadline then .deadlinePrompt
  else if w.fs.awaiting_communication_types then
    .commTypesPrompt (if "Users" ∈ w.audienceList
                      then USER_COMMUNICATION_TYPES else DRIVER_COMMUNICATION_TYPES)
  else .question (w.fs.current_question.getD "None")

/-- A `"⬅️ Go back"` message for an existing session: `handle_back` restores
and re-prompts when the history pops; when `go_back` returns `False`,
`handle_back` returns `False` and `handle_message` falls through to the
ordinary dispatch with the literal message text. -/
def handleGoBack (sess : Session) : Option Session × Option Reply :=
  match sess.world.goBack with
  | some w => (some { sess with world := w }, some (backReply w))
  | none => dispatchText sess "⬅️ Go back"

/-- Fold a list of text messages through the `collecting_data` step. -/
def runMsgs (w : World) (msgs : List String) : World :=
  msgs.foldl (fun w m => (collectStep w m).1) w

/-- Session state after: 📝 Create Task, select 👥 Users (still selecting audience). -/
def selWorld : World := runMsgs startWorld ["👥 Users"]

/-- Session state after: 📝 Create Task, 👥 Users, ✅ Done (awaiting region). -/
def regionWorld : World := runMsgs startWorld ["👥 Users", "✅ Done"]

/-- Session state after answering through the segment question: the
communication-types multi-select is active. -/
def commWorld : World := runMsgs startWorld
  ["👥 Users", "✅ Done", "🌎 All regions", "a1", "a2", "a3", "a4", "a5", "seg"]

/-- Session state after committing a communication type: the deadline
calendar is showing (`awaiting_deadline`). -/
def deadlineWorld : World := runMsgs startWorld
  ["👥 Users", "✅ Done", "🌎 All regions", "a1", "a2", "a3", "a4", "a5", "seg",
   "📱 Push", "✅ Done"]

/-- Gregorian leap year test. -/
def isLeap (y : Nat) : Bool :=
  decide ((y % 4 = 0 ∧ y % 100 ≠ 0) ∨ y % 400 = 0)

/-- Number of days in a month. -/
def daysInMonth (y m : Nat) : Nat :=
  if m = 2 then (if isLeap y then 29 else 28)
  else if m = 4 ∨ m = 6 ∨ m = 9 ∨ m = 11 then 30
  else 31

/-- Month offset table of Sakamoto's day-of-week algorithm. -/
def sakamotoT : List Nat := [0, 3, 2, 5, 0, 3, 5, 1, 4, 6, 2, 4]

/-- Day of week with Sunday = 0 (Sakamoto's algorithm, years ≥ 1). -/
def weekdaySun0 (y m d : Nat) : Nat :=
  let yy := if m < 3 then y - 1 else y
  (yy + yy / 4 - yy / 100 + yy / 400 + sakamotoT.getD (m - 1) 0 + d) % 7

/-- `datetime.date(y, m, d).weekday()`: Monday = 0. -/
def pyWeekday (y m d : Nat) : Nat := (weekdaySun0 y m d + 6) % 7

/-- Break the padded cell list into weeks of seven (the input is always a
multiple of seven long; a shorter leftover would become a final short week). -/
def chunkWeeks : List Nat → List (List Nat)
  | a₁ :: a₂ :: a₃ :: a₄ :: a₅ :: a₆ :: a₇ :: rest =>
      [a₁, a₂, a₃, a₄, a₅, a₆, a₇] :: chunkWeeks rest
  | [] => []
  | l => [l]

/-- `calendar.monthcalendar(year, month)`: weeks starting Monday, days
outside the month rendered as 0. -/
def monthcalendar (y m : Nat) : List (List Nat) :=
  let first := pyWeekday y m 1
  let n := daysInMonth y m
  let cells := List.replicate first 0 ++ (List.range n).map (fun i => i + 1)
  let pad := (7 - cells.length % 7) % 7
  chunkWeeks (cells ++ List.replicate pad 0)

/-- An inline-keyboard callback payload.  The source serializes these as the
strings `"ignore"`, `"date_YYYY-MM-DD"` and `"month_<year>_<month>"`. -/
inductive CallbackData where
  | ignore
  | dateCell (y m d : Nat)
  | monthNav (y m : Nat)
deriving Repr, DecidableEq

/-- An inline keyboard button: label plus callback payload. -/
structure Button where
  label : String
  callback : CallbackData
deriving Repr, DecidableEq

/-- Month names used in the calendar title row. -/
def monthNames : List String :=
  ["January", "February", "March", "April", "May", "June", "July",
   "August", "September", "October", "November", "December"]

/-- One day cell of the calendar grid: blank for padding, a disabled `✖`
cell for dates strictly before `today`, a selectable date button otherwise. -/
def dayButton (year month : Nat) (today : Date) (day : Nat) : Button :=
  if day = 0 then { label := " ", callback := .ignore }
  else if dateLt { y := year, m := month, d := day } today then
    { label := "✖", callback := .ignore }
  else { label := toString day, callback := .dateCell year month day }

/-- `create_calendar_keyboard(year, month)` (lines 300-352); `today` is
`datetime.now(timezone.utc).date()`. -/
def create_calendar_keyboard (year month : Nat) (today : Date) : List (List Button) :=
  let title : List Button :=
    [{ label := monthNames.getD (month - 1) "" ++ " " ++ toString year, callback := .ignore }]
  let header : List Button :=
    (["Mo", "Tu", "We", "Th", "Fr", "Sa", "Su"]).map
      (fun d => { label := d, callback := CallbackData.ignore })
  let weeks := (monthcalendar year month).map (fun w => w.map (dayButton year month today))
  let pm : Nat × Nat := if month - 1 = 0 then (12, year - 1) else (month - 1, year)
  let nm : Nat × Nat := if month + 1 = 13 then (1, year + 1) else (month + 1, year)
  ([title, header] ++ weeks) ++
    [[{ label := "<<", callback := .monthNav pm.2 pm.1 },
      { label := ">>", callback := .monthNav nm.2 nm.1 }]]

/-- Claim C1: `go_back` does not undo an additional audience selection.
`save_state` stores `answers.copy()`, a shallow copy whose audience list is
the same object as the live one, so the in-place append mutates the snapshot
too.  After selecting 👥 Users and then 🚗 Drivers, the state before the
Drivers selection had audience `["Users"]`, but `go_back` yields
`["Users", "Drivers"]`. -/
theorem go_back_keeps_duplicated_audience :
    (runMsgs startWorld ["👥 Users"]).audienceList = ["Users"] ∧
    ((runMsgs startWorld ["👥 Users", "🚗 Drivers"]).goBack.map World.audienceList)
      = some ["Users", "Drivers"] ∧
    (["Users", "Drivers"] : List String) ≠ ["Users"] :=
  ⟨rfl, rfl, by decide⟩

/-- Claim C2 (counterexample): with the clock at 2025-06-09 14:49:11 UTC, a
deadline of 2025-06-12 — exactly 3 calendar days ahead — yields "blocker",
not the "critical" the claim asserts: the code subtracts the full current
instant from the deadline at midnight, so the day difference floors to 2. -/
theorem priority_three_days_is_blocker :
    toEpochDay ⟨2025, 6, 12⟩ = toEpochDay ⟨2025, 6, 9⟩ + 3 ∧
    calculate_priority ⟨2025, 6, 12⟩ ⟨2025, 6, 9⟩ 53351 = "blocker" ∧
    ("blocker" : String) ≠ "critical" :=
  ⟨rfl, rfl, by decide⟩

/-- Claim C2 (amended): `calculate_priority` floors
`(deadline at midnight − now)` to whole days; whenever the current time of
day is strictly after midnight, a deadline exactly k calendar days ahead is
tiered as k − 1 days: blocker for k ≤ 3, critical for k ≤ 7, major for
k ≤ 14, normal otherwise. -/
theorem calculate_priority_behavior (deadline nowDay : Date) (sod k : Nat)
    (h1 : 0 < sod) (h2 : sod < 86400)
    (hk : toEpochDay deadline = toEpochDay nowDay + (k : Int)) :
    calculate_priority deadline nowDay sod =
      if (k : Int) - 1 < 3 then "blocker"
      else if (k : Int) - 1 < 7 then "critical"
      else if (k : Int) - 1 < 14 then "major"
      else "normal" := by
  have hdiff : toEpochDay deadline * 86400 - (toEpochDay nowDay * 86400 + (sod : Int))
      = (86400 - (sod : Int)) + 86400 * ((k : Int) - 1) := by
    rw [hk]; ring
  have hz : (86400 - (sod : Int)) / 86400 = 0 := by
    apply Int.ediv_eq_zero_of_lt <;> omega
  have hfd : Int.fdiv ((86400 - (sod : Int)) + 86400 * ((k : Int) - 1)) 86400
      = (k : Int) - 1 := by
    rw [Int.fdiv_eq_ediv _ (by norm_num), Int.add_mul_ediv_left _ _ (by norm_num : (86400 : Int) ≠ 0), hz]
    ring
  simp only [calculate_priority, hdiff, hfd]

/-- Witness for the amended C2: a deadline exactly 7 calendar days ahead of
2025-06-09 14:49:11 UTC is tiered as 6 days, "critical". -/
theorem calculate_priority_behavior_witness :
    calculate_priority ⟨2025, 6, 16⟩ ⟨2025, 6, 9⟩ 53351 =
      if ((7 : Nat) : Int) - 1 < 3 then "blocker"
      else if ((7 : Nat) : Int) - 1 < 7 then "critical"
      else if ((7 : Nat) : Int) - 1 < 14 then "major"
      else "normal" :=
  calculate_priority_behavior ⟨2025, 6, 16⟩ ⟨2025, 6, 9⟩ 53351 7
    (by decide) (by decide) (by decide)

/-- Claim C3 (counterexample): with the deadline calendar active after a full
survey (11 history snapshots), clicking the past date 2025-06-08 on
2025-06-09 pushes a 12th snapshot: `save_state` runs before the past-date
validation, so the history stack grows on a rejected date. -/
theorem past_date_pushes_history_counterexample :
    dateLt ⟨2025, 6, 8⟩ ⟨2025, 6, 9⟩ = true ∧
    deadlineWorld.fs.awaiting_deadline = true ∧
    deadlineWorld.fs.previous_states.length = 11 ∧
    (callbackDateStep deadlineWorld ⟨2025, 6, 8⟩ ⟨2025, 6, 9⟩ 0).1.fs.previous_states.length = 12 :=
  ⟨rfl, rfl, rfl, rfl⟩

/-- Claim C3 (amended): selecting a past date while `awaiting_deadline` is a
validation error that keeps `awaiting_deadline` true, leaves `answers`
untouched and re-renders the calendar with an error — but a history snapshot
equal to the pre-event state is pushed, because `save_state` runs before the
validation. -/
theorem past_date_rejected_but_pushed (w : World) (sel today : Date) (sod : Nat)
    (hd : w.fs.awaiting_deadline = true) (hlt : dateLt sel today = true) :
    (callbackDateStep w sel today sod).1.fs.awaiting_deadline = true ∧
    (callbackDateStep w sel today sod).1.fs.answers = w.fs.answers ∧
    (callbackDateStep w sel today sod).1.fs.previous_states
      = w.fs.previous_states ++ [w.fs.snapshot] ∧
    (callbackDateStep w sel today sod).2 = some Reply.pastDateError := by
  simp [callbackDateStep, hd, hlt, FormState.save_state]

/-- Witness for the amended C3 at the concrete full-survey state and dates. -/
theorem past_date_rejected_but_pushed_witness :
    (callbackDateStep deadlineWorld ⟨2025, 6, 8⟩ ⟨2025, 6, 9⟩ 0).1.fs.awaiting_deadline = true ∧
    (callbackDateStep deadlineWorld ⟨2025, 6, 8⟩ ⟨2025, 6, 9⟩ 0).1.fs.answers = deadlineWorld.fs.answers ∧
    (callbackDateStep deadlineWorld ⟨2025, 6, 8⟩ ⟨2025, 6, 9⟩ 0).1.fs.previous_states
      = deadlineWorld.fs.previous_states ++ [deadlineWorld.fs.snapshot] ∧
    (callbackDateStep deadlineWorld ⟨2025, 6, 8⟩ ⟨2025, 6, 9⟩ 0).2 = some Reply.pastDateError :=
  past_date_rejected_but_pushed deadlineWorld ⟨2025, 6, 8⟩ ⟨2025, 6, 9⟩ 0 rfl rfl

/-- Claim C4: with an existing record and an empty history stack, the
`go back` event is not a no-op in the minimal-ticket flow: `handle_back`
returns False and `handle_message` falls through, recording the literal
"⬅️ Go back" as the task name; a second such event submits a ticket whose
summary is that literal. -/
theorem go_back_empty_history_becomes_task_name :
    handleGoBack { phase := .emptyName, world := startWorld, task_name := none } =
      (some { phase := .emptyDescription, world := startWorld, task_name := some "⬅️ Go back" },
       some Reply.enterDescription) ∧
    handleGoBack { phase := .emptyDescription, world := startWorld, task_name := some "⬅️ Go back" } =
      (none, some (Reply.submitted
        { queue := "YANGOCRM", summary := pySlice100 "⬅️ Go back", priority := "normal" })) :=
  ⟨rfl, rfl⟩

/-- Invariant of the audience-selection phase: the phase is not finalized,
and either nothing has been selected yet (no audience key, empty heap), or
the dictionary references the single heap cell, whose duplicate-free content
has exactly the members of `S`. -/
def AudInv (w : World) (S : List String) : Prop :=
  w.fs.selected_audience = false ∧
  ((w.fs.answers.audienceRef = none ∧ w.heap = [] ∧ S = []) ∨
   (w.fs.answers.audienceRef = some 0 ∧
    ∃ L, w.heap = [L] ∧ L.Nodup ∧ (∀ x, x ∈ L ↔ x ∈ S)))

/-- One catalog audience selection preserves the phase invariant, extending
the selected set by the cleaned choice. -/
theorem audInv_step (w : World) (S : List String) (m : String)
    (hw : AudInv w S) (hm : m ∈ AUDIENCE_CHOICES) :
    AudInv (collectStep w m).1 (stripEmoji m :: S) := by
  obtain ⟨hsel, hcase⟩ := hw
  have hmd : m ≠ DONE_SELECTION := by
    intro h; rw [h] at hm; revert hm; decide
  rcases hcase with ⟨href, hheap, hS⟩ | ⟨href, L, hheap, hnd, hmem⟩
  · -- first selection: a fresh list cell is allocated
    refine ⟨?_, Or.inr ⟨?_, [stripEmoji m], ?_, ?_, ?_⟩⟩ <;>
      simp [collectStep, hsel, href, hheap, hm, hS, FormState.save_state]
  · -- later selection: append to the shared cell unless already present
    by_cases hc : stripEmoji m ∈ L
    · have hstep : (collectStep w m).1 = w := by
        simp [collectStep, hsel, href, hheap, hm, hmd, audienceListOf, hc,
              List.getD_cons_zero]
      rw [hstep]
      refine ⟨hsel, Or.inr ⟨href, L, hheap, hnd, fun x => ?_⟩⟩
      rw [List.mem_cons]
      constructor
      · intro hx; exact Or.inr ((hmem x).1 hx)
      · rintro (rfl | hx)
        · exact hc
        · exact (hmem x).2 hx
    · have hstep : (collectStep w m).1 =
          { fs := w.fs.save_state, heap := [L ++ [stripEmoji m]] } := by
        simp [collectStep, hsel, href, hheap, hm, hmd, audienceListOf, hc,
              heapAppend, List.getD_cons_zero]
      rw [hstep]
      refine ⟨by simp [FormState.save_state, hsel],
        Or.inr ⟨by simp [FormState.save_state, href], L ++ [stripEmoji m], rfl, ?_, fun x => ?_⟩⟩
      · rw [List.nodup_append]
        refine ⟨hnd, List.nodup_singleton _, ?_⟩
        intro a ha hb
        simp only [List.mem_singleton] at hb
        rw [hb] at ha
        exact hc ha
      · rw [List.mem_append, List.mem_singleton, List.mem_cons]
        constructor
        · rintro (hx | rfl)
          · exact Or.inr ((hmem x).1 hx)
          · exact Or.inl rfl
        · rintro (rfl | hx)
          · exact Or.inr rfl
          · exact Or.inl ((hmem x).2 hx)

/-- Processing any sequence of catalog audience selections from an invariant
state lands in an invariant state whose selected set is the cleaned inputs
plus the prior set. -/
theorem audInv_run (msgs : List String) : ∀ (w : World) (S : List String),
    AudInv w S → (∀ m ∈ msgs, m ∈ AUDIENCE_CHOICES) →
    ∃ S2, AudInv (runMsgs w msgs) S2 ∧
      (∀ x, x ∈ S2 ↔ x ∈ msgs.map stripEmoji ∨ x ∈ S) := by
  induction msgs with
  | nil =>
      intro w S hw _
      exact ⟨S, hw, by simp⟩
  | cons m rest ih =>
      intro w S hw hall
      have h1 := audInv_step w S m hw (hall m (by simp))
      obtain ⟨S2, hS2, hmem2⟩ :=
        ih ((collectStep w m).1) (stripEmoji m :: S) h1 (fun x hx => hall x (by simp [hx]))
      refine ⟨S2, ?_, ?_⟩
      · simpa [runMsgs] using hS2
      · intro x
        rw [hmem2 x, List.map_cons, List.mem_cons, List.mem_cons]
        tauto

/-- Claim C5: after any sequence of valid audience selections from the fresh
create-task state, each selected value (emoji stripped) occurs exactly once
in `answers['audience']`, duplicates notwithstanding. -/
theorem audience_no_duplicates (msgs : List String)
    (hall : ∀ m ∈ msgs, m ∈ AUDIENCE_CHOICES) (m : String) (hm : m ∈ msgs) :
    ((runMsgs startWorld msgs).audienceList).count (stripEmoji m) = 1 := by
  have h0 : AudInv startWorld [] := by
    refine ⟨rfl, Or.inl ⟨rfl, rfl, rfl⟩⟩
  obtain ⟨S2, hinv, hS2⟩ := audInv_run msgs startWorld [] h0 hall
  obtain ⟨hsel, hcase⟩ := hinv
  have hin : stripEmoji m ∈ S2 :=
    (hS2 _).2 (Or.inl (List.mem_map_of_mem _ hm))
  rcases hcase with ⟨href, hheap, hS⟩ | ⟨href, L, hheap, hnd, hmemL⟩
  · rw [hS] at hin; simp at hin
  · have hL : stripEmoji m ∈ L := (hmemL _).2 hin
    have heq : (runMsgs startWorld msgs).audienceList = L := by
      simp [World.audienceList, audienceListOf, href, hheap]
    rw [heq]
    exact List.count_eq_one_of_mem hnd hL

/-- Witness for C5: selecting Users, Drivers, then Users again leaves
exactly one "Users" entry. -/
theorem audience_no_duplicates_witness :
    ((runMsgs startWorld ["👥 Users", "🚗 Drivers", "👥 Users"]).audienceList).count
      (stripEmoji "👥 Users") = 1 :=
  audience_no_duplicates ["👥 Users", "🚗 Drivers", "👥 Users"] (by decide) "👥 Users" (by decide)

/-- Claim C6: a catalog region selection in the region phase builds the
question sequence (the popped current question followed by the queue) as:
common questions then final questions for "All regions" — with no
country/city prompt — and exactly the two region-specific prompts followed
by the common and final questions for any other region. -/
theorem region_branch_queue (w : World) (msg : String)
    (h1 : w.fs.selected_audience = true)
    (h2 : w.fs.selected_region = none)
    (hm : msg ∈ REGION_CHOICES) :
    (stripEmoji msg = "All regions" →
       (collectStep w msg).1.fs.current_question.toList ++ (collectStep w msg).1.fs.questions_queue
         = COMMON_QUESTIONS ++ FINAL_QUESTIONS ∧
       "Which country?" ∉ COMMON_QUESTIONS ++ FINAL_QUESTIONS ∧
       "Which city?" ∉ COMMON_QUESTIONS ++ FINAL_QUESTIONS) ∧
    (stripEmoji msg ≠ "All regions" →
       (collectStep w msg).1.fs.current_question.toList ++ (collectStep w msg).1.fs.questions_queue
         = REGION_SPECIFIC_QUESTIONS ++ COMMON_QUESTIONS ++ FINAL_QUESTIONS) := by
  constructor
  · intro hall
    refine ⟨?_, by decide, by decide⟩
    simp [collectStep, h1, h2, hm, hall, FormState.get_next_question,
          FormState.save_state, COMMON_QUESTIONS, FINAL_QUESTIONS]
  · intro hall
    simp [collectStep, h1, h2, hm, hall, FormState.get_next_question,
          FormState.save_state, COMMON_QUESTIONS, FINAL_QUESTIONS,
          REGION_SPECIFIC_QUESTIONS]

/-- Witness for C6 at the concrete awaiting-region state, for both an
"All regions" selection and a specific region. -/
theorem region_branch_queue_witness :
    ((collectStep regionWorld "🌎 All regions").1.fs.current_question.toList
       ++ (collectStep regionWorld "🌎 All regions").1.fs.questions_queue
       = COMMON_QUESTIONS ++ FINAL_QUESTIONS ∧
     "Which country?" ∉ COMMON_QUESTIONS ++ FINAL_QUESTIONS ∧
     "Which city?" ∉ COMMON_QUESTIONS ++ FINAL_QUESTIONS) ∧
    ((collectStep regionWorld "🌍 CIS").1.fs.current_question.toList
       ++ (collectStep regionWorld "🌍 CIS").1.fs.questions_queue
       = REGION_SPECIFIC_QUESTIONS ++ COMMON_QUESTIONS ++ FINAL_QUESTIONS) :=
  ⟨(region_branch_queue regionWorld "🌎 All regions" rfl rfl (by decide)).1 (by decide),
   (region_branch_queue regionWorld "🌍 CIS" rfl rfl (by decide)).2 (by decide)⟩

/-- Claim C7: in the communication-types phase, the applicable catalog is
the Users one exactly when `answers['audience']` contains "Users", otherwise
the Drivers one; a selection inside the applicable catalog is appended once,
anything else leaves `communication_types` unchanged. -/
theorem comm_catalog_by_audience (w : World) (rg msg : String)
    (h1 : w.fs.selected_audience = true)
    (h2 : w.fs.selected_region = some rg)
    (h3 : w.fs.current_question = some commTypesQuestion)
    (h4 : w.fs.awaiting_communication_types = true)
    (h5 : msg ≠ DONE_SELECTION) :
    ("Users" ∈ w.audienceList →
      (collectStep w msg).1.fs.communication_types =
        (if msg ∈ USER_COMMUNICATION_TYPES ∧ msg ∉ w.fs.communication_types
         then w.fs.communication_types ++ [msg] else w.fs.communication_types)) ∧
    ("Users" ∉ w.audienceList →
      (collectStep w msg).1.fs.communication_types =
        (if msg ∈ DRIVER_COMMUNICATION_TYPES ∧ msg ∉ w.fs.communication_types
         then w.fs.communication_types ++ [msg] else w.fs.communication_types)) := by
  have hau : w.audienceList = audienceListOf w.heap w.fs.answers := rfl
  constructor
  · intro hu
    rw [hau] at hu
    by_cases hcat : msg ∈ USER_COMMUNICATION_TYPES
    · by_cases hdup : msg ∈ w.fs.communication_types <;>
        simp [collectStep, h1, h2, h3, h4, h5, hu, hcat, hdup, FormState.save_state]
    · simp [collectStep, h1, h2, h3, h4, h5, hu, hcat]
  · intro hu
    rw [hau] at hu
    by_cases hcat : msg ∈ DRIVER_COMMUNICATION_TYPES
    · by_cases hdup : msg ∈ w.fs.communication_types <;>
        simp [collectStep, h1, h2, h3, h4, h5, hu, hcat, hdup, FormState.save_state]
    · simp [collectStep, h1, h2, h3, h4, h5, hu, hcat]

/-- Witness for C7 at the concrete communication-types state with a Users
audience: the Drivers-only "📰 Feed" option is rejected, and a Users option
is appended. -/
theorem comm_catalog_by_audience_witness :
    ((collectStep commWorld "📰 Feed").1.fs.communication_types =
       (if "📰 Feed" ∈ USER_COMMUNICATION_TYPES ∧ "📰 Feed" ∉ commWorld.fs.communication_types
        then commWorld.fs.communication_types ++ ["📰 Feed"]
        else commWorld.fs.communication_types)) ∧
    ((collectStep commWorld "🖼️ Banner").1.fs.communication_types =
       (if "🖼️ Banner" ∈ USER_COMMUNICATION_TYPES ∧ "🖼️ Banner" ∉ commWorld.fs.communication_types
        then commWorld.fs.communication_types ++ ["🖼️ Banner"]
        else commWorld.fs.communication_types)) :=
  ⟨(comm_catalog_by_audience commWorld "All regions" "📰 Feed" rfl rfl rfl rfl
      (by decide)).1 (by decide),
   (comm_catalog_by_audience commWorld "All regions" "🖼️ Banner" rfl rfl rfl rfl
      (by decide)).1 (by decide)⟩

/-- Claim C8 (counterexample): in the initial audience state, "✅ Done" with
no prior selection is silently ignored — the handler falls through the whole
branch chain, so no reply at all is sent, rather than the error re-prompt
the claim asserts (and the state does not transition). -/
theorem done_without_selection_is_silent :
    collectStep startWorld DONE_SELECTION = (startWorld, none) ∧
    (none : Option Reply) ≠ some Reply.selectAtLeastOneAudience :=
  ⟨rfl, by decide⟩

/-- Claim C8 (amended): "✅ Done" in the initial audience state (no audience
key yet) is a silent no-op — no state change, no reply; once at least one
audience option has been selected, "✅ Done" finalizes the audience phase
(after a history push) and moves to the region prompt. -/
theorem done_requires_selection :
    (∀ w : World, w.fs.selected_audience = false → w.fs.answers.audienceRef = none →
        collectStep w DONE_SELECTION = (w, none)) ∧
    (∀ (w : World) (r : Nat), w.fs.selected_audience = false →
        w.fs.answers.audienceRef = some r → w.audienceList ≠ [] →
        (collectStep w DONE_SELECTION).1.fs.selected_audience = true ∧
        (collectStep w DONE_SELECTION).2 = some Reply.regionPrompt ∧
        (collectStep w DONE_SELECTION).1.fs.previous_states
          = w.fs.previous_states ++ [w.fs.snapshot]) := by
  constructor
  · intro w hsel href
    have hmem : DONE_SELECTION ∉ AUDIENCE_CHOICES := by decide
    simp [collectStep, hsel, href, hmem]
  · intro w r hsel href hne
    have hne2 : audienceListOf w.heap w.fs.answers ≠ [] := hne
    simp [collectStep, hsel, href, hne2, FormState.save_state]

/-- Witness for the amended C8: silent no-op at the fresh state, commit
after one selection. -/
theorem done_requires_selection_witness :
    collectStep startWorld DONE_SELECTION = (startWorld, none) ∧
    ((collectStep selWorld DONE_SELECTION).1.fs.selected_audience = true ∧
     (collectStep selWorld DONE_SELECTION).2 = some Reply.regionPrompt ∧
     (collectStep selWorld DONE_SELECTION).1.fs.previous_states
       = selWorld.fs.previous_states ++ [selWorld.fs.snapshot]) :=
  ⟨done_requires_selection.1 startWorld rfl rfl,
   done_requires_selection.2 selWorld 0 rfl rfl (by decide)⟩

/-- Python's 100-character slice never exceeds 100 characters. -/
theorem pySlice100_length (s : String) : (pySlice100 s).length ≤ 100 := by
  show (s.data.take 100).length ≤ 100
  rw [List.length_take]
  exact min_le_left _ _

/-- Claim C9: every submitted ticket summary is at most 100 characters — the
full-survey summary is the first common question's answer sliced to 100, and
the minimal-ticket flow submits the user-supplied name sliced to 100 with
priority "normal" while never prompting for a deadline. -/
theorem summaries_truncated (d : Dict) (a nm ds : String)
    (ha : d.get? "What is the task about? (What has happened?)" = some a) :
    (fullSurveySummary d = some (pySlice100 a) ∧ (pySlice100 a).length ≤ 100) ∧
    (emptyStep { phase := .emptyName, world := startWorld, task_name := none } nm =
       (some { phase := .emptyDescription, world := startWorld, task_name := some nm },
        some Reply.enterDescription) ∧
     emptyStep { phase := .emptyDescription, world := startWorld, task_name := some nm } ds =
       (none, some (Reply.submitted
         { queue := "YANGOCRM", summary := pySlice100 nm, priority := "normal" })) ∧
     (pySlice100 nm).length ≤ 100 ∧
     startWorld.fs.awaiting_deadline = false ∧
     (∀ t : Ticket, Reply.submitted t ≠ Reply.deadlinePrompt) ∧
     Reply.enterDescription ≠ Reply.deadlinePrompt) := by
  refine ⟨⟨?_, pySlice100_length a⟩, rfl, rfl, pySlice100_length nm, rfl, ?_, by decide⟩
  · simp [fullSurveySummary, ha]
  · intro t h
    cases h

/-- Witness for C9: the minimal-ticket scenario of the spec ("Fix banner")
and a full-survey record whose first common answer is "X". -/
theorem summaries_truncated_witness :
    (fullSurveySummary
         { audienceRef := none,
           entries := [("What is the task about? (What has happened?)", "X")] }
       = some (pySlice100 "X") ∧ (pySlice100 "X").length ≤ 100) ∧
    (emptyStep { phase := .emptyName, world := startWorld, task_name := none } "Fix banner" =
       (some { phase := .emptyDescription, world := startWorld, task_name := some "Fix banner" },
        some Reply.enterDescription) ∧
     emptyStep { phase := .emptyDescription, world := startWorld, task_name := some "Fix banner" }
         "Banner broken on Android" =
       (none, some (Reply.submitted
         { queue := "YANGOCRM", summary := pySlice100 "Fix banner", priority := "normal" })) ∧
     (pySlice100 "Fix banner").length ≤ 100 ∧
     startWorld.fs.awaiting_deadline = false ∧
     (∀ t : Ticket, Reply.submitted t ≠ Reply.deadlinePrompt) ∧
     Reply.enterDescription ≠ Reply.deadlinePrompt) :=
  summaries_truncated
    { audienceRef := none,
      entries := [("What is the task about? (What has happened?)", "X")] }
    "X" "Fix banner" "Banner broken on Android" rfl

/-- Claim C10: no calendar grid ever offers a past date — every button whose
payload is a date cell denotes a date of the displayed month not before
`today`, and every in-month day strictly before `today` is rendered as the
disabled `✖` cell with the ignore payload. -/
theorem calendar_no_past_dates (year month : Nat) (today : Date) :
    (∀ row ∈ create_calendar_keyboard year month today, ∀ b ∈ row,
       ∀ y m d, b.callback = CallbackData.dateCell y m d →
         y = year ∧ m = month ∧ dateLt { y := y, m := m, d := d } today = false) ∧
    (∀ week ∈ monthcalendar year month, ∀ day ∈ week, day ≠ 0 →
       dateLt { y := year, m := month, d := day } today = true →
       dayButton year month today day = { label := "✖", callback := CallbackData.ignore }) := by
  constructor
  · intro row hrow b hb y m d hcb
    simp only [create_calendar_keyboard, List.append_assoc, List.mem_append,
      List.mem_cons, List.not_mem_nil, or_false, List.mem_map, List.mem_singleton] at hrow
    rcases hrow with (rfl | rfl) | ⟨wk, hwk, rfl⟩ | rfl
    · simp only [List.mem_singleton] at hb
      rw [hb] at hcb
      cases hcb
    · simp only [List.mem_map] at hb
      obtain ⟨lbl, _, hbeq⟩ := hb
      rw [← hbeq] at hcb
      cases hcb
    · simp only [List.mem_map] at hb
      obtain ⟨day, _, hbeq⟩ := hb
      by_cases hz : day = 0
      · rw [← hbeq] at hcb
        simp [dayButton, hz] at hcb
      · by_cases hlt : dateLt { y := year, m := month, d := day } today = true
        · rw [← hbeq] at hcb
          simp [dayButton, hz, hlt] at hcb
        · rw [← hbeq] at hcb
          simp [dayButton, hz, hlt] at hcb
          obtain ⟨rfl, rfl, rfl⟩ := hcb
          exact ⟨rfl, rfl, by simpa using hlt⟩
    · simp only [List.mem_cons, List.not_mem_nil, or_false, List.mem_singleton] at hb
      rcases hb with rfl | rfl <;> cases hcb
  · intro week hweek day hday hne hlt
    simp [dayButton, hne, hlt]

/-- Witness for C10 at June 2025 with today = 2025-06-15: day 20 is offered
(a date cell not before today) and day 10 is the disabled cell. -/
theorem calendar_no_past_dates_witness :
    (2025 = 2025 ∧ 6 = 6 ∧ dateLt { y := 2025, m := 6, d := 20 } { y := 2025, m := 6, d := 15 } = false) ∧
    dayButton 2025 6 { y := 2025, m := 6, d := 15 } 10
      = { label := "✖", callback := CallbackData.ignore } :=
  ⟨(calendar_no_past_dates 2025 6 { y := 2025, m := 6, d := 15 }).1
     (([16, 17, 18, 19, 20, 21, 22]).map (dayButton 2025 6 { y := 2025, m := 6, d := 15 }))
     (by decide)
     (dayButton 2025 6 { y := 2025, m := 6, d := 15 } 20)
     (by decide) 2025 6 20 (by decide),
   (calendar_no_past_dates 2025 6 { y := 2025, m := 6, d := 15 }).2
     [9, 10, 11, 12, 13, 14, 15] (by decide) 10 (by decide) (by decide) (by decide)⟩

end TrackerBot
